import Mathlib

/-!
Shallow embedding of HyperHDR `sources/webserver/WebServer.cpp`: the port
negotiation (`WebServer::portAvailable`), the settings reconciliation
(`WebServer::handleSettingsUpdate`), the TLS material loading, and the
lifecycle slots (`WebServer::onServerStarted`, `WebServer::onServerStopped`).

Qt values are embedded as plain data: `quint16` ports as `Nat` reduced
modulo 2^16 where the C++ narrows, `QString` as `String`, parsed
certificate lists as `List Cert`, a possibly-null `QSslKey` as
`Option Key`.  The ambient file system, port occupancy and clock are an
explicit environment `Env`.  Signals emitted during one settings apply are
collected into a `List Event` trace, together with markers for the
`stop()` / `start()` calls the apply performs.
-/

/-- A parsed certificate as the code observes it: `isNull` is
`QSslCertificate::isNull()`, and `expiryDate` is the `notAfter` timestamp
at day granularity (so `QDateTime::currentDateTime().daysTo(expiryDate())`
is `expiryDate - now`). -/
structure Cert where
  isNull : Bool
  expiryDate : Int
deriving DecidableEq, Repr

/-- Abstract handle for a successfully parsed (non-null) private key. -/
abbrev Key := Nat

/-- `QDateTime::currentDateTime().daysTo(entry.expiryDate())` at day
granularity: number of days from `now` to `expiry`. -/
def daysTo (now expiry : Int) : Int := expiry - now

/-- Settings categories; the handler only reacts to `WEBSERVER`. -/
inductive SettingsType where
  | WEBSERVER
  | JSONSERVER
  | LEDS
deriving DecidableEq, Repr

/-- The webserver part of a configuration snapshot (`QJsonObject` fields);
`none` models an absent field, for which `toString`/`toInt` return the
supplied default. -/
structure WebConfig where
  document_root : Option String
  port : Option Nat
  sslPort : Option Nat
  keyPath : Option String
  crtPath : Option String
  keyPassPhrase : Option String
deriving DecidableEq, Repr

/-- The mutable state of one `WebServer` instance together with the state
installed in its `QtHttpServer`: `_port`, `_baseUrl`, whether the server
socket is listening, the installed certificate list and private key, the
Bonjour registration (`none` when `_serviceRegister == nullptr`, otherwise
the registered port), and `_inited`. -/
structure ServerState where
  port : Nat
  baseUrl : String
  listening : Bool
  certificates : List Cert
  privateKey : Option Key
  servicePort : Option Nat
  inited : Bool
deriving DecidableEq, Repr

/-- Observable events of one apply: emitted signals (`stateChange`,
`portChanged`, the error signal), the Bonjour announce/withdraw effects,
and markers for the `stop()` / `start()` calls made by the handler. -/
inductive Event where
  | stopCall
  | startCall
  | stateChange (listening : Bool)
  | portChanged (port : Nat)
  | announce (port : Nat)
  | withdraw
  | errorEvt
deriving DecidableEq, Repr

/-- The ambient world: port occupancy (`free p` = a probe/real bind on
port `p` succeeds), the file system checks used by the handler, the parse
results for certificate and key files, the current day, and the built-in
default key/cert paths (`WEBSERVER_DEFAULT_KEY_PATH` /
`WEBSERVER_DEFAULT_CRT_PATH`, compile-time constants of the repository). -/
structure Env where
  free : Nat → Bool
  dirExists : String → Bool
  fileExists : String → Bool
  certsAt : String → List Cert
  keyAt : String → String → Option Key
  now : Int
  defaultKeyPath : String
  defaultCrtPath : String

/-- `WEBSERVER_DEFAULT_PATH`, the embedded default document root; the code
compares `_baseUrl` against the literal `":/webconfig"` and falls back to
`WEBSERVER_DEFAULT_PATH`, so the constant is that literal. -/
def WEBSERVER_DEFAULT_PATH : String := ":/webconfig"

/-- The `while (!server.listen(...)) port++` loop of
`WebServer::portAvailable`, with the `quint16` increment wrapping modulo
2^16.  `fuel` bounds the unfolding; `none` models non-termination (after
65536 steps every port has been probed, so with fuel 65536 `none` occurs
exactly when no port at all is free). -/
def findPortFrom (free : Nat → Bool) : Nat → Nat → Option Nat
  | 0, _ => none
  | fuel + 1, port => if free port then some port else findPortFrom free fuel ((port + 1) % 65536)

/-- `WebServer::portAvailable(port, log)`: starting from the requested
port, probe-bind upward until a bind succeeds; the first component is the
final value of the by-reference `port`, the second the C++ return value
(`true` iff the port was not adjusted, i.e. `port == prevPort`). -/
def portAvailable (free : Nat → Bool) (port : Nat) : Option (Nat × Bool) :=
  (findPortFrom free 65536 port).map (fun p => (p, p == port))

/-- The spec-facing view `findAvailablePort(requested) -> (effective,
wasAdjusted)`: `wasAdjusted` is the negation of the C++ return value of
`portAvailable` (which returns `false` when the port was adjusted). -/
def findAvailablePort (free : Nat → Bool) (requested : Nat) : Option (Nat × Bool) :=
  (portAvailable free requested).map (fun r => (r.1, !r.2))

/-- `QString::trimmed().isEmpty()`: the string is empty or consists of
whitespace only. -/
def isBlank (s : String) : Bool := s.data.all Char.isWhitespace

/-- The keyPath/crtPath resolution of `WebServer::handleSettingsUpdate`
(one of the two symmetric blocks): keep a configured path only when it
differs from the built-in default, is not blank, and exists on disk;
otherwise use the default.  The second component records whether an
error-level message was logged (only the falling-back-because-missing
branch logs). -/
def resolvePath (dflt : String) (exists? : String → Bool) (path : String) : String × Bool :=
  if path ≠ dflt ∧ isBlank path = false then
    if exists? path then (path, false) else (dflt, true)
  else (dflt, false)

/-- The document-root resolution of `WebServer::handleSettingsUpdate`:
a non-default, non-blank `document_root` is kept only when it exists and
is a directory; otherwise `WEBSERVER_DEFAULT_PATH` is used. -/
def resolveDocRoot (env : Env) (cfg : WebConfig) : String :=
  let raw := cfg.document_root.getD WEBSERVER_DEFAULT_PATH
  if raw ≠ WEBSERVER_DEFAULT_PATH ∧ isBlank raw = false then
    if env.dirExists raw then raw else WEBSERVER_DEFAULT_PATH
  else WEBSERVER_DEFAULT_PATH

/-- `quint16 newPort = _useSsl ? obj["sslPort"].toInt(WEBSERVER_DEFAULT_PORT)
: obj["port"].toInt(WEBSERVER_DEFAULT_PORT)`, with the defaults 8092 (TLS,
set in `initServer`) and 8080 (plain, from the spec's interface section),
narrowed to `quint16`. -/
def requestedPort (useSsl : Bool) (cfg : WebConfig) : Nat :=
  (if useSsl then cfg.sslPort.getD 8092 else cfg.port.getD 8080) % 65536

/-- The certificate filter of `WebServer::handleSettingsUpdate`: keep
exactly the parsed entries that are non-null and whose expiry is more than
zero full days away. -/
def validCerts (now : Int) (cs : List Cert) : List Cert :=
  cs.filter (fun c => (!c.isNull) && decide (0 < daysTo now c.expiryDate))

/-- `WebServer::onServerStarted(port)`: mark inited, manage the Bonjour
registration (only for the non-TLS instance: register when absent,
re-register — delete then create — when the registered port differs), then
emit `stateChange(true)`. -/
def onServerStarted (useSsl : Bool) (port : Nat) (st : ServerState) : ServerState × List Event :=
  let st1 : ServerState := { st with inited := true }
  let reg : ServerState × List Event :=
    if useSsl then (st1, [])
    else
      match st1.servicePort with
      | none => ({ st1 with servicePort := some port }, [Event.announce port])
      | some q =>
          if q ≠ port then ({ st1 with servicePort := some port }, [Event.withdraw, Event.announce port])
          else (st1, [])
  (reg.1, reg.2 ++ [Event.stateChange true])

/-- `WebServer::onServerStopped()`: emit `stateChange(false)`; the Bonjour
registration is left untouched. -/
def onServerStopped (st : ServerState) : ServerState × List Event :=
  (st, [Event.stateChange false])

namespace QtHttpServer

/-- Modelled from the spec: `QtHttpServer::stop` is not part of the
provided source.  Per the spec's ServerLifecycle contract, `stop()` is
valid from any state and idempotent — a no-op while stopped; on actual
stop completion it emits the `stopped` signal, which the connected slot
`WebServer::onServerStopped` turns into `stateChange(false)`. -/
def stop (st : ServerState) : ServerState × List Event :=
  if st.listening then onServerStopped { st with listening := false } else (st, [])

/-- Modelled from the spec: `QtHttpServer::start` is not part of the
provided source.  Per the spec's ServerLifecycle/ConfigReconciler
contract, a `start` while already listening is a no-op for the listener
(re-applying an identical snapshot produces no restart); from stopped it
binds `st.port`, emitting `started(port)` — dispatched synchronously to
`WebServer::onServerStarted` — on success and the error signal on
failure. -/
def start (env : Env) (useSsl : Bool) (st : ServerState) : ServerState × List Event :=
  if st.listening then (st, [])
  else if env.free st.port then onServerStarted useSsl st.port { st with listening := true }
  else (st, [Event.errorEvt])

end QtHttpServer

/-- The certificate path the TLS block ends up reading: the configured
`crtPath` (default when absent) after the fallback resolution. -/
def loadedCrtPath (env : Env) (cfg : WebConfig) : String :=
  (resolvePath env.defaultCrtPath env.fileExists (cfg.crtPath.getD env.defaultCrtPath)).1

/-- The key path the TLS block ends up reading, after fallback resolution. -/
def loadedKeyPath (env : Env) (cfg : WebConfig) : String :=
  (resolvePath env.defaultKeyPath env.fileExists (cfg.keyPath.getD env.defaultKeyPath)).1

/-- `validList` of the TLS block: the parsed certificates of the resolved
certificate file, filtered for validity. -/
def loadedValidCerts (env : Env) (cfg : WebConfig) : List Cert :=
  validCerts env.now (env.certsAt (loadedCrtPath env cfg))

/-- The key parsed from the resolved key file with the configured
passphrase; `none` is a null (`QSslKey::isNull`) key. -/
def loadedKey (env : Env) (cfg : WebConfig) : Option Key :=
  env.keyAt (loadedKeyPath env cfg) (cfg.keyPassPhrase.getD "")

/-- The TLS block of `WebServer::handleSettingsUpdate` (under `if
(_useSsl)`): resolve key and certificate paths, parse and filter the
certificate file, install the filtered list only when it is non-empty,
parse the key with the configured passphrase, and install it only when it
is not null.  The two halves are guarded independently. -/
def applyTls (env : Env) (cfg : WebConfig) (st : ServerState) : ServerState :=
  let validList := loadedValidCerts env cfg
  let st1 := if validList ≠ [] then { st with certificates := validList } else st
  match loadedKey env cfg with
  | some k => { st1 with privateKey := some k }
  | none => st1

/-- Lines 140-145 of the handler: `quint16 newPort = ...; if (_port !=
newPort) { _port = newPort; stop(); }`, with the `stop()` call recorded as
a marker in the trace. -/
def stopPhase (useSsl : Bool) (cfg : WebConfig) (st1 : ServerState) : ServerState × List Event :=
  if st1.port ≠ requestedPort useSsl cfg then
    let stopped := QtHttpServer.stop { st1 with port := requestedPort useSsl cfg }
    (stopped.1, Event.stopCall :: stopped.2)
  else (st1, [])

/-- Lines 147-149 of the handler: `if (!_server->isListening())
portAvailable(_port, _log)` — the negotiation mutates `_port` through the
reference; its `bool` result is discarded.  `none` models the
non-terminating probe loop (no port at all free). -/
def negotiatePhase (env : Env) (st2 : ServerState) : Option ServerState :=
  if st2.listening then some st2
  else (portAvailable env.free st2.port).map (fun r => { st2 with port := r.1 })

/-- The TLS block followed by the `start()` call (lines 152-225). -/
def startPhase (env : Env) (useSsl : Bool) (cfg : WebConfig) (st3 : ServerState) :
    ServerState × List Event :=
  QtHttpServer.start env useSsl (if useSsl then applyTls env cfg st3 else st3)

/-- `WebServer::handleSettingsUpdate(type, config)`: for `WEBSERVER`
settings, resolve the document root, compute the requested port, stop the
listener when the port changed, negotiate a free port when not listening,
apply the TLS block when `_useSsl`, call `start()`, and finally emit
`portChanged(_port)`.  `none` models the non-terminating negotiation loop
(no free port at all).  For any other settings type, nothing happens. -/
def handleSettingsUpdate (env : Env) (useSsl : Bool) (ty : SettingsType) (cfg : WebConfig)
    (st : ServerState) : Option (ServerState × List Event) :=
  if ty = SettingsType.WEBSERVER then
    match negotiatePhase env (stopPhase useSsl cfg { st with baseUrl := resolveDocRoot env cfg }).1 with
    | none => none
    | some st3 =>
      some ((startPhase env useSsl cfg st3).1,
        (stopPhase useSsl cfg { st with baseUrl := resolveDocRoot env cfg }).2 ++
          Event.startCall :: (startPhase env useSsl cfg st3).2 ++ [Event.portChanged st3.port])
  else some (st, [])

/-- Number of occurrences of event `e` in a trace. -/
def countEvt (e : Event) : List Event → Nat
  | [] => 0
  | x :: xs => (if x = e then 1 else 0) + countEvt e xs

/-- Number of `portChanged` events (of any port) in a trace. -/
def countPortChanged : List Event → Nat
  | [] => 0
  | Event.portChanged _ :: xs => 1 + countPortChanged xs
  | _ :: xs => countPortChanged xs

/-- Whether an event is one of the call markers `stopCall` / `startCall`. -/
def isCallMarker : Event → Bool
  | Event.stopCall => true
  | Event.startCall => true
  | _ => false

/-! ## Helper lemmas -/

theorem findPortFrom_spec (free : Nat → Bool) :
    ∀ (fuel port q : Nat), port ≤ q → q < port + fuel → q < 65536 → free q = true →
      ∃ r, findPortFrom free fuel port = some r ∧ free r = true ∧ port ≤ r ∧ r ≤ q ∧
        ∀ p, port ≤ p → p < r → free p = false := by
  intro fuel
  induction fuel with
  | zero =>
    intro port q h1 h2 _ _
    exact absurd h2 (by omega)
  | succ n ih =>
    intro port q h1 h2 h3 hq
    by_cases hp : free port = true
    · refine ⟨port, ?_, hp, Nat.le_refl _, h1, ?_⟩
      · simp [findPortFrom, hp]
      · intro p hp1 hp2
        exact absurd hp2 (by omega)
    · have hpf : free port = false := by
        cases h : free port with
        | true => exact absurd h hp
        | false => rfl
      have hne : port ≠ q := by
        intro h
        rw [h, hq] at hpf
        cases hpf
      have hlt : port + 1 ≤ q := by omega
      have hmod : (port + 1) % 65536 = port + 1 := Nat.mod_eq_of_lt (by omega)
      obtain ⟨r, hr, hfr, hr1, hr2, hr3⟩ := ih (port + 1) q hlt (by omega) h3 hq
      refine ⟨r, ?_, hfr, by omega, hr2, ?_⟩
      · simp [findPortFrom, hpf, hmod, hr]
      · intro p hp1 hp2
        rcases Nat.lt_or_ge p (port + 1) with h | h
        · have hpe : p = port := by omega
          rw [hpe]
          exact hpf
        · exact hr3 p h hp2

/-! ## Claims -/

/-- Claim C1: for a requested port `P` (given some free port at or above
`P` in the 16-bit range, so the probe loop returns), `findAvailablePort`
returns as effective port the smallest free port at or above `P`, and
reports `wasAdjusted = true` iff the effective port differs from `P`. -/
theorem claim_C1 (free : Nat → Bool) (P q : Nat)
    (hq : free q = true) (hPq : P ≤ q) (hq16 : q < 65536) :
    ∃ r adj, findAvailablePort free P = some (r, adj) ∧
      free r = true ∧ P ≤ r ∧ (∀ p, P ≤ p → p < r → free p = false) ∧
      (adj = true ↔ r ≠ P) := by
  obtain ⟨r, hr, hfr, hr1, hr2, hr3⟩ := findPortFrom_spec free 65536 P q hPq (by omega) hq16 hq
  refine ⟨r, !(r == P), ?_, hfr, hr1, hr3, ?_⟩
  · simp [findAvailablePort, portAvailable, hr]
  · simp

/-- Witness for C1 at a concrete occupancy: ports below 8090 are occupied,
so requesting 8088 yields effective port 8090 and `wasAdjusted = true`. -/
theorem claim_C1_witness :
    ∃ r adj, findAvailablePort (fun p => decide (8090 ≤ p)) 8088 = some (r, adj) ∧
      (fun p => decide (8090 ≤ p)) r = true ∧ 8088 ≤ r ∧
      (∀ p, 8088 ≤ p → p < r → (fun p => decide (8090 ≤ p)) p = false) ∧
      (adj = true ↔ r ≠ 8088) :=
  claim_C1 (fun p => decide (8090 ≤ p)) 8088 8090 (by decide) (by decide) (by decide)

/-- Claim C7 counterexample: with exactly port 65535 occupied, negotiation
from requested port 65535 wraps (uint16 increment) and returns effective
port 0, which is strictly below the requested port — refuting
`EffectivePort >= requestedPort` under wrap-around. -/
theorem claim_C7_counterexample :
    findAvailablePort (fun p => decide (p ≠ 65535)) 65535 = some (0, true) ∧ ¬ (65535 ≤ 0) := by
  refine ⟨by decide, by decide⟩

/-- Claim C7 (amended): whenever some port at or above the requested port
is free within the 16-bit range (so the probe loop never wraps), the
effective port returned by negotiation is at least the requested port. -/
theorem claim_C7_amended (free : Nat → Bool) (P q r : Nat) (adj : Bool)
    (hq : free q = true) (hPq : P ≤ q) (hq16 : q < 65536)
    (h : findAvailablePort free P = some (r, adj)) :
    P ≤ r := by
  obtain ⟨r', hr', _, hr1, _, _⟩ := findPortFrom_spec free 65536 P q hPq (by omega) hq16 hq
  simp only [findAvailablePort, portAvailable, hr', Option.map_some', Option.some.injEq,
    Prod.mk.injEq] at h
  obtain ⟨h1, -⟩ := h
  omega

/-- Witness for the amended C7: requesting 8999 with everything below 9000
occupied returns effective port 9000 ≥ 8999. -/
theorem claim_C7_amended_witness :
    findAvailablePort (fun p => decide (9000 ≤ p)) 8999 = some (9000, true) ∧ (8999 : Nat) ≤ 9000 :=
  ⟨by decide,
   claim_C7_amended (fun p => decide (9000 ≤ p)) 8999 9000 9000 true (by decide) (by decide)
     (by decide) (by decide)⟩

/-- Claim C10: for any settings type other than `WEBSERVER`, the handler
returns the state unchanged and emits no events. -/
theorem claim_C10 (env : Env) (useSsl : Bool) (ty : SettingsType) (cfg : WebConfig)
    (st : ServerState) (h : ty ≠ SettingsType.WEBSERVER) :
    handleSettingsUpdate env useSsl ty cfg st = some (st, []) := by
  simp [handleSettingsUpdate, h]

/-! ## Phase lemmas for the handler -/

theorem stopPhase_eq (useSsl : Bool) (cfg : WebConfig) (st1 : ServerState) :
    stopPhase useSsl cfg st1 =
      if st1.port = requestedPort useSsl cfg then (st1, [])
      else if st1.listening then
        ({ st1 with port := requestedPort useSsl cfg, listening := false },
          [Event.stopCall, Event.stateChange false])
      else ({ st1 with port := requestedPort useSsl cfg }, [Event.stopCall]) := by
  unfold stopPhase QtHttpServer.stop onServerStopped
  by_cases h : st1.port = requestedPort useSsl cfg
  · simp [h]
  · by_cases hl : st1.listening
    · simp [h, hl]
    · simp [h, hl]

theorem applyTls_preserves (env : Env) (cfg : WebConfig) (st : ServerState) :
    (applyTls env cfg st).port = st.port ∧ (applyTls env cfg st).listening = st.listening ∧
    (applyTls env cfg st).servicePort = st.servicePort ∧
    (applyTls env cfg st).baseUrl = st.baseUrl ∧ (applyTls env cfg st).inited = st.inited := by
  unfold applyTls
  cases h : loadedKey env cfg with
  | none =>
    by_cases hv : loadedValidCerts env cfg ≠ []
    · simp [h, hv]
    · simp [h, hv]
  | some k =>
    by_cases hv : loadedValidCerts env cfg ≠ []
    · simp [h, hv]
    · simp [h, hv]

theorem onServerStarted_snd (useSsl : Bool) (port : Nat) (st : ServerState) :
    (onServerStarted useSsl port st).2 = [Event.stateChange true] ∨
    (onServerStarted useSsl port st).2 = [Event.announce port, Event.stateChange true] ∨
    (onServerStarted useSsl port st).2 = [Event.withdraw, Event.announce port, Event.stateChange true] := by
  unfold onServerStarted
  cases useSsl with
  | true => left; rfl
  | false =>
    cases hs : st.servicePort with
    | none => right; left; simp [hs]
    | some q =>
      by_cases hq : q ≠ port
      · right; right; simp [hs, hq]
      · left; simp [hs, hq]

theorem startPhase_snd (env : Env) (useSsl : Bool) (cfg : WebConfig) (st3 : ServerState) :
    ∃ q, (startPhase env useSsl cfg st3).2 = [] ∨
      (startPhase env useSsl cfg st3).2 = [Event.errorEvt] ∨
      (startPhase env useSsl cfg st3).2 = [Event.stateChange true] ∨
      (startPhase env useSsl cfg st3).2 = [Event.announce q, Event.stateChange true] ∨
      (startPhase env useSsl cfg st3).2 = [Event.withdraw, Event.announce q, Event.stateChange true] := by
  unfold startPhase QtHttpServer.start
  set st4 := if useSsl then applyTls env cfg st3 else st3 with hst4
  by_cases hl : st4.listening
  · exact ⟨0, Or.inl (by simp [hl])⟩
  · by_cases hf : env.free st4.port = true
    · refine ⟨st4.port, ?_⟩
      rcases onServerStarted_snd useSsl st4.port { st4 with listening := true } with h | h | h
      · right; right; left; simpa [hl, hf] using h
      · right; right; right; left; simpa [hl, hf] using h
      · right; right; right; right; simpa [hl, hf] using h
    · exact ⟨0, Or.inr (Or.inl (by simp [hl, hf]))⟩

/-- Every successful `WEBSERVER` apply produces a trace of the shape
`stopPart ++ startCall :: startEvents ++ [portChanged p]`, where
`stopPart` is empty exactly when the requested port equals the current
port. -/
theorem handle_trace_shape (env : Env) (useSsl : Bool) (cfg : WebConfig) (st st' : ServerState)
    (evs : List Event)
    (h : handleSettingsUpdate env useSsl SettingsType.WEBSERVER cfg st = some (st', evs)) :
    ∃ pre mid p q, evs = pre ++ Event.startCall :: mid ++ [Event.portChanged p] ∧
      ((st.port = requestedPort useSsl cfg ∧ pre = []) ∨
        (st.port ≠ requestedPort useSsl cfg ∧
          (pre = [Event.stopCall] ∨ pre = [Event.stopCall, Event.stateChange false]))) ∧
      (mid = [] ∨ mid = [Event.errorEvt] ∨ mid = [Event.stateChange true] ∨
        mid = [Event.announce q, Event.stateChange true] ∨
        mid = [Event.withdraw, Event.announce q, Event.stateChange true]) := by
  rw [handleSettingsUpdate, if_pos rfl] at h
  rcases hng : negotiatePhase env
      (stopPhase useSsl cfg { st with baseUrl := resolveDocRoot env cfg }).1 with _ | st3
  · rw [hng] at h
    cases h
  · rw [hng] at h
    simp only [Option.some.injEq, Prod.mk.injEq] at h
    obtain ⟨-, hevs⟩ := h
    obtain ⟨q, hmid⟩ := startPhase_snd env useSsl cfg st3
    refine ⟨(stopPhase useSsl cfg { st with baseUrl := resolveDocRoot env cfg }).2,
      (startPhase env useSsl cfg st3).2, st3.port, q, hevs.symm, ?_, hmid⟩
    rw [stopPhase_eq]
    by_cases hq : st.port = requestedPort useSsl cfg
    · left
      exact ⟨hq, by simp [hq]⟩
    · right
      refine ⟨hq, ?_⟩
      by_cases hl : st.listening
      · right
        simp [hq, hl]
      · left
        simp [hq, hl]

theorem countEvt_append (e : Event) (l1 l2 : List Event) :
    countEvt e (l1 ++ l2) = countEvt e l1 + countEvt e l2 := by
  induction l1 with
  | nil => simp [countEvt]
  | cons x xs ih => simp [countEvt, ih]; omega

theorem countPortChanged_append (l1 l2 : List Event) :
    countPortChanged (l1 ++ l2) = countPortChanged l1 + countPortChanged l2 := by
  induction l1 with
  | nil => simp [countPortChanged]
  | cons x xs ih =>
    cases x <;> simp [countPortChanged, ih, Nat.add_assoc]

theorem portAvailable_of_free (free : Nat → Bool) (p : Nat) (h : free p = true) :
    portAvailable free p = some (p, true) := by
  rw [portAvailable, (rfl : (65536 : Nat) = 65535 + 1)]
  simp [findPortFrom, h]

theorem negotiatePhase_listening (env : Env) (st2 : ServerState) (h2 : st2.listening = true) :
    negotiatePhase env st2 = some st2 := by
  simp [negotiatePhase, h2]

theorem negotiatePhase_free (env : Env) (st2 : ServerState)
    (h2 : st2.listening = false) (hf : env.free st2.port = true) :
    negotiatePhase env st2 = some st2 := by
  rw [negotiatePhase, if_neg (by rw [h2]; exact Bool.false_ne_true),
    portAvailable_of_free env.free st2.port hf]
  rfl

theorem onServerStarted_fst (useSsl : Bool) (port : Nat) (st : ServerState) :
    (onServerStarted useSsl port st).1.port = st.port ∧
    (onServerStarted useSsl port st).1.listening = st.listening ∧
    (onServerStarted useSsl port st).1.baseUrl = st.baseUrl := by
  unfold onServerStarted
  cases useSsl with
  | true => simp
  | false =>
    cases hs : st.servicePort with
    | none => simp [hs]
    | some q =>
      by_cases hq : q ≠ port
      · simp [hs, hq]
      · simp [hs, hq]

theorem start_noop (env : Env) (useSsl : Bool) (st : ServerState) (h : st.listening = true) :
    QtHttpServer.start env useSsl st = (st, []) := by
  simp [QtHttpServer.start, h]

theorem start_success (env : Env) (useSsl : Bool) (st : ServerState)
    (h : st.listening = false) (hf : env.free st.port = true) :
    (QtHttpServer.start env useSsl st).1.listening = true ∧
    (QtHttpServer.start env useSsl st).1.port = st.port ∧
    countEvt (Event.stateChange true) (QtHttpServer.start env useSsl st).2 = 1 ∧
    countEvt Event.stopCall (QtHttpServer.start env useSsl st).2 = 0 := by
  have hstart : QtHttpServer.start env useSsl st =
      onServerStarted useSsl st.port { st with listening := true } := by
    simp [QtHttpServer.start, h, hf]
  rw [hstart]
  obtain ⟨h1, h2, -⟩ := onServerStarted_fst useSsl st.port { st with listening := true }
  refine ⟨by rw [h2], by rw [h1], ?_, ?_⟩
  · rcases onServerStarted_snd useSsl st.port { st with listening := true } with hs | hs | hs <;>
      rw [hs] <;> simp [countEvt]
  · rcases onServerStarted_snd useSsl st.port { st with listening := true } with hs | hs | hs <;>
      rw [hs] <;> simp [countEvt]

theorem applyTls_listening (env : Env) (useSsl : Bool) (cfg : WebConfig) (st : ServerState) :
    (if useSsl then applyTls env cfg st else st).listening = st.listening := by
  cases useSsl with
  | true => simpa using (applyTls_preserves env cfg st).2.1
  | false => rfl

theorem applyTls_port (env : Env) (useSsl : Bool) (cfg : WebConfig) (st : ServerState) :
    (if useSsl then applyTls env cfg st else st).port = st.port := by
  cases useSsl with
  | true => simpa using (applyTls_preserves env cfg st).1
  | false => rfl

/-- Executing one `WEBSERVER` apply, given the results of the stop phase
and of the negotiation. -/
theorem handle_unfold (env : Env) (useSsl : Bool) (cfg : WebConfig) (st st2 st3 : ServerState)
    (sp2 : List Event)
    (hsp : stopPhase useSsl cfg { st with baseUrl := resolveDocRoot env cfg } = (st2, sp2))
    (hng : negotiatePhase env st2 = some st3) :
    handleSettingsUpdate env useSsl SettingsType.WEBSERVER cfg st =
      some ((startPhase env useSsl cfg st3).1,
        sp2 ++ Event.startCall :: (startPhase env useSsl cfg st3).2 ++
          [Event.portChanged st3.port]) := by
  rw [handleSettingsUpdate, if_pos rfl, hsp]
  show (match negotiatePhase env st2 with
    | none => none
    | some s3 =>
      some ((startPhase env useSsl cfg s3).1,
        sp2 ++ Event.startCall :: (startPhase env useSsl cfg s3).2 ++
          [Event.portChanged s3.port])) = _
  rw [hng]

/-- A `WEBSERVER` apply on a server that is already listening on the
requested port: no stop, no negotiation, the `start()` call is a listener
no-op; only the `startCall` marker and the unconditional `portChanged` are
produced. -/
theorem handle_listening_noop (env : Env) (useSsl : Bool) (cfg : WebConfig) (st : ServerState)
    (hL : st.listening = true) (hP : st.port = requestedPort useSsl cfg) :
    ∃ st'', handleSettingsUpdate env useSsl SettingsType.WEBSERVER cfg st =
      some (st'', [Event.startCall, Event.portChanged st.port]) := by
  have hL1 : ({ st with baseUrl := resolveDocRoot env cfg } : ServerState).listening = true := hL
  have hsp : stopPhase useSsl cfg { st with baseUrl := resolveDocRoot env cfg } =
      ({ st with baseUrl := resolveDocRoot env cfg }, []) := by
    rw [stopPhase_eq, if_pos (show ({ st with baseUrl := resolveDocRoot env cfg } :
      ServerState).port = requestedPort useSsl cfg from hP)]
  have hng := negotiatePhase_listening env { st with baseUrl := resolveDocRoot env cfg } hL1
  have h4 : ((if useSsl then applyTls env cfg { st with baseUrl := resolveDocRoot env cfg }
      else { st with baseUrl := resolveDocRoot env cfg }) : ServerState).listening = true := by
    rw [applyTls_listening]
    exact hL1
  have hstp : startPhase env useSsl cfg { st with baseUrl := resolveDocRoot env cfg } =
      ((if useSsl then applyTls env cfg { st with baseUrl := resolveDocRoot env cfg }
        else { st with baseUrl := resolveDocRoot env cfg }), []) := by
    rw [startPhase, start_noop env useSsl _ h4]
  refine ⟨(if useSsl then applyTls env cfg { st with baseUrl := resolveDocRoot env cfg }
      else { st with baseUrl := resolveDocRoot env cfg }), ?_⟩
  rw [handle_unfold env useSsl cfg st _ _ _ hsp hng, hstp]
  rfl

/-- A `WEBSERVER` apply on a stopped server when the requested port is
free: negotiation keeps the requested port, the bind succeeds, and the
trace contains exactly one transition to listening. -/
theorem handle_start_success (env : Env) (useSsl : Bool) (cfg : WebConfig) (st : ServerState)
    (hL : st.listening = false) (hF : env.free (requestedPort useSsl cfg) = true) :
    ∃ st' evs, handleSettingsUpdate env useSsl SettingsType.WEBSERVER cfg st = some (st', evs) ∧
      st'.listening = true ∧ st'.port = requestedPort useSsl cfg ∧
      countEvt (Event.stateChange true) evs = 1 := by
  have hL1 : ({ st with baseUrl := resolveDocRoot env cfg } : ServerState).listening = false := hL
  by_cases hq : ({ st with baseUrl := resolveDocRoot env cfg } : ServerState).port =
      requestedPort useSsl cfg
  · have hsp : stopPhase useSsl cfg { st with baseUrl := resolveDocRoot env cfg } =
        ({ st with baseUrl := resolveDocRoot env cfg }, []) := by
      rw [stopPhase_eq, if_pos hq]
    have hfp : env.free ({ st with baseUrl := resolveDocRoot env cfg } : ServerState).port = true := by
      rw [show ({ st with baseUrl := resolveDocRoot env cfg } : ServerState).port =
        requestedPort useSsl cfg from hq]
      exact hF
    have hng := negotiatePhase_free env { st with baseUrl := resolveDocRoot env cfg } hL1 hfp
    have h4L : ((if useSsl then applyTls env cfg { st with baseUrl := resolveDocRoot env cfg }
        else { st with baseUrl := resolveDocRoot env cfg }) : ServerState).listening = false := by
      rw [applyTls_listening]
      exact hL1
    have h4P : ((if useSsl then applyTls env cfg { st with baseUrl := resolveDocRoot env cfg }
        else { st with baseUrl := resolveDocRoot env cfg }) : ServerState).port =
        requestedPort useSsl cfg := by
      rw [applyTls_port]
      exact hq
    have h4F : env.free ((if useSsl then applyTls env cfg
        { st with baseUrl := resolveDocRoot env cfg }
        else { st with baseUrl := resolveDocRoot env cfg }) : ServerState).port = true := by
      rw [h4P]
      exact hF
    obtain ⟨hs1, hs2, hs3, -⟩ := start_success env useSsl _ h4L h4F
    refine ⟨_, _, handle_unfold env useSsl cfg st _ _ _ hsp hng, ?_, ?_, ?_⟩
    · rw [startPhase]
      exact hs1
    · rw [startPhase, hs2, h4P]
    · rw [countEvt_append, countEvt]
      have : countEvt (Event.stateChange true) (startPhase env useSsl cfg
          { st with baseUrl := resolveDocRoot env cfg }).2 = 1 := by
        rw [startPhase]
        exact hs3
      simp [countEvt, countEvt_append, this]
  · set R2 : ServerState :=
      { st with baseUrl := resolveDocRoot env cfg, port := requestedPort useSsl cfg } with hR2
    have hsp : stopPhase useSsl cfg { st with baseUrl := resolveDocRoot env cfg } =
        (R2, [Event.stopCall]) := by
      rw [stopPhase_eq, if_neg hq, if_neg (by rw [hL1]; exact Bool.false_ne_true), hR2]
    have hL2 : R2.listening = false := hL
    have hfp : env.free R2.port = true := hF
    have hng := negotiatePhase_free env R2 hL2 hfp
    have h4L : ((if useSsl then applyTls env cfg R2 else R2) : ServerState).listening = false := by
      rw [applyTls_listening]
      exact hL2
    have h4P : ((if useSsl then applyTls env cfg R2 else R2) : ServerState).port =
        requestedPort useSsl cfg := by
      rw [applyTls_port, hR2]
    have h4F : env.free ((if useSsl then applyTls env cfg R2 else R2) : ServerState).port = true := by
      rw [h4P]
      exact hF
    obtain ⟨hs1, hs2, hs3, -⟩ := start_success env useSsl _ h4L h4F
    refine ⟨_, _, handle_unfold env useSsl cfg st _ _ _ hsp hng, ?_, ?_, ?_⟩
    · rw [startPhase]
      exact hs1
    · rw [startPhase, hs2, h4P]
    · have hc : countEvt (Event.stateChange true) (startPhase env useSsl cfg R2).2 = 1 := by
        rw [startPhase]
        exact hs3
      simp [countEvt, countEvt_append, hc]

/-! ## Concrete scenarios -/

/-- Environment in which port 8090 is occupied and 8091 is free. -/
def envA : Env :=
  { free := fun p => p == 8091
    dirExists := fun _ => false
    fileExists := fun _ => false
    certsAt := fun _ => []
    keyAt := fun _ _ => none
    now := 0
    defaultKeyPath := "k"
    defaultCrtPath := "c" }

/-- Environment in which every port from 8090 upward is free. -/
def envB : Env :=
  { free := fun p => decide (8090 ≤ p)
    dirExists := fun _ => false
    fileExists := fun _ => false
    certsAt := fun _ => []
    keyAt := fun _ _ => none
    now := 0
    defaultKeyPath := "k"
    defaultCrtPath := "c" }

/-- A snapshot requesting plain port 8090 with all other fields absent. -/
def cfgA : WebConfig :=
  { document_root := none, port := some 8090, sslPort := none
    keyPath := none, crtPath := none, keyPassPhrase := none }

/-- A freshly constructed server (port 0, not listening, nothing installed). -/
def stA : ServerState :=
  { port := 0, baseUrl := "", listening := false, certificates := []
    privateKey := none, servicePort := none, inited := false }

/-- The server state after the first apply of `cfgA` under `envA`. -/
def stA1 : ServerState :=
  { port := 8091, baseUrl := ":/webconfig", listening := true, certificates := []
    privateKey := none, servicePort := some 8091, inited := true }

/-- Claim C2 counterexample: under `envA` the requested port 8090 is
occupied, so the first apply listens on the adjusted port 8091; re-applying
the identical snapshot then finds `_port (8091) != newPort (8090)`, stops
the listener, renegotiates and restarts it — the second apply performs a
stop/restart and there are two transitions to listening in total, not
one. -/
theorem claim_C2_counterexample :
    handleSettingsUpdate envA false SettingsType.WEBSERVER cfgA stA =
      some (stA1, [Event.stopCall, Event.startCall, Event.announce 8091,
        Event.stateChange true, Event.portChanged 8091]) ∧
    handleSettingsUpdate envA false SettingsType.WEBSERVER cfgA stA1 =
      some (stA1, [Event.stopCall, Event.stateChange false, Event.startCall,
        Event.stateChange true, Event.portChanged 8091]) ∧
    countEvt Event.stopCall [Event.stopCall, Event.stateChange false, Event.startCall,
      Event.stateChange true, Event.portChanged 8091] = 1 ∧
    countEvt (Event.stateChange true)
      ([Event.stopCall, Event.startCall, Event.announce 8091, Event.stateChange true,
        Event.portChanged 8091] ++
       [Event.stopCall, Event.stateChange false, Event.startCall, Event.stateChange true,
        Event.portChanged 8091]) = 2 :=
  ⟨by decide, by decide, by decide, by decide⟩

/-- Claim C2 (amended): re-applying an identical snapshot is idempotent for
the listener provided the requested port itself is free (so the first apply
did not have to adjust it): starting from a stopped server, the second
apply performs no stop call, emits no listener state change, and across
both applies there is exactly one transition to listening. -/
theorem claim_C2_amended (env : Env) (useSsl : Bool) (cfg : WebConfig) (st : ServerState)
    (hL : st.listening = false) (hF : env.free (requestedPort useSsl cfg) = true) :
    ∃ st1 evs1 st2 evs2,
      handleSettingsUpdate env useSsl SettingsType.WEBSERVER cfg st = some (st1, evs1) ∧
      handleSettingsUpdate env useSsl SettingsType.WEBSERVER cfg st1 = some (st2, evs2) ∧
      countEvt Event.stopCall evs2 = 0 ∧
      (∀ b, countEvt (Event.stateChange b) evs2 = 0) ∧
      countEvt (Event.stateChange true) (evs1 ++ evs2) = 1 := by
  obtain ⟨st1, evs1, h1, hL1, hP1, hc1⟩ := handle_start_success env useSsl cfg st hL hF
  obtain ⟨st2, h2⟩ := handle_listening_noop env useSsl cfg st1 hL1 hP1
  refine ⟨st1, evs1, st2, [Event.startCall, Event.portChanged st1.port], h1, h2, ?_, ?_, ?_⟩
  · simp [countEvt]
  · intro b
    simp [countEvt]
  · rw [countEvt_append, hc1]
    simp [countEvt]

/-- Witness for the amended C2 at a concrete input: under `envB` the
requested port 8090 is free, and the double apply from a fresh server
satisfies the amended idempotence property. -/
theorem claim_C2_amended_witness :
    ∃ st1 evs1 st2 evs2,
      handleSettingsUpdate envB false SettingsType.WEBSERVER cfgA stA = some (st1, evs1) ∧
      handleSettingsUpdate envB false SettingsType.WEBSERVER cfgA st1 = some (st2, evs2) ∧
      countEvt Event.stopCall evs2 = 0 ∧
      (∀ b, countEvt (Event.stateChange b) evs2 = 0) ∧
      countEvt (Event.stateChange true) (evs1 ++ evs2) = 1 :=
  claim_C2_amended envB false cfgA stA rfl (by decide)

/-- Claim C9: every completed `WEBSERVER` apply emits `portChanged` exactly
once, whatever the environment, configuration and prior state. -/
theorem claim_C9 (env : Env) (useSsl : Bool) (cfg : WebConfig) (st st' : ServerState)
    (evs : List Event)
    (h : handleSettingsUpdate env useSsl SettingsType.WEBSERVER cfg st = some (st', evs)) :
    countPortChanged evs = 1 := by
  obtain ⟨pre, mid, p, q, hevs, hpre, hmid⟩ := handle_trace_shape env useSsl cfg st st' evs h
  subst hevs
  rcases hpre with ⟨-, hp⟩ | ⟨-, hp | hp⟩ <;>
    rcases hmid with hm | hm | hm | hm | hm <;> rw [hp, hm] <;> rfl

/-- Witness for C9 at a concrete input: the first apply of the `envA`
scenario emits exactly one `portChanged`. -/
theorem claim_C9_witness :
    countPortChanged [Event.stopCall, Event.startCall, Event.announce 8091,
      Event.stateChange true, Event.portChanged 8091] = 1 :=
  claim_C9 envA false cfgA stA stA1 _ (by decide)

/-- Claim C5: in every completed `WEBSERVER` apply whose requested port
differs from the current port, the `stop()` call is the very first action
of the run, and the call markers of the trace are exactly one stop followed
by one start. -/
theorem claim_C5 (env : Env) (useSsl : Bool) (cfg : WebConfig) (st st' : ServerState)
    (evs : List Event) (hne : st.port ≠ requestedPort useSsl cfg)
    (h : handleSettingsUpdate env useSsl SettingsType.WEBSERVER cfg st = some (st', evs)) :
    evs.filter isCallMarker = [Event.stopCall, Event.startCall] ∧
    evs.head? = some Event.stopCall := by
  obtain ⟨pre, mid, p, q, hevs, hpre, hmid⟩ := handle_trace_shape env useSsl cfg st st' evs h
  subst hevs
  rcases hpre with ⟨heq, -⟩ | ⟨-, hp | hp⟩
  · exact absurd heq hne
  · rcases hmid with hm | hm | hm | hm | hm <;> rw [hp, hm] <;> exact ⟨rfl, rfl⟩
  · rcases hmid with hm | hm | hm | hm | hm <;> rw [hp, hm] <;> exact ⟨rfl, rfl⟩

/-- Witness for C5 at a concrete input: the first apply of the `envA`
scenario changes the port from 0 to 8090, so its trace starts with the stop
call and contains exactly the markers stop-then-start. -/
theorem claim_C5_witness :
    ([Event.stopCall, Event.startCall, Event.announce 8091, Event.stateChange true,
      Event.portChanged 8091] : List Event).filter isCallMarker =
        [Event.stopCall, Event.startCall] ∧
    ([Event.stopCall, Event.startCall, Event.announce 8091, Event.stateChange true,
      Event.portChanged 8091] : List Event).head? = some Event.stopCall :=
  claim_C5 envA false cfgA stA stA1 _ (by decide) (by decide)

/-- A certificate with one hundred days of remaining validity. -/
def certValid : Cert := { isNull := false, expiryDate := 100 }

/-- A certificate whose `notAfter` lies five days in the past. -/
def certExpired : Cert := { isNull := false, expiryDate := -5 }

/-- Environment whose certificate file parses to a valid, an expired and a
valid certificate, and whose key file parses to a null key. -/
def envC : Env :=
  { free := fun _ => true
    dirExists := fun _ => false
    fileExists := fun _ => false
    certsAt := fun _ => [certValid, certExpired, certValid]
    keyAt := fun _ _ => none
    now := 0
    defaultKeyPath := "k"
    defaultCrtPath := "c" }

/-- A server with an older certificate list and private key installed. -/
def stOld : ServerState :=
  { port := 8092, baseUrl := "", listening := false
    certificates := [{ isNull := false, expiryDate := 50 }], privateKey := some 7
    servicePort := none, inited := false }

/-- Claim C3 counterexample: with a non-empty valid certificate list but a
null (invalid) key, the TLS block still installs the new certificate list
while keeping the old key — the identity is left half-updated, refuting
the both-or-neither installation policy. -/
theorem claim_C3_counterexample :
    loadedKey envC cfgA = none ∧
    (applyTls envC cfgA stOld).certificates ≠ stOld.certificates ∧
    (applyTls envC cfgA stOld).privateKey = stOld.privateKey :=
  ⟨by decide, by decide, by decide⟩

/-- Claim C3 (amended): the two halves of the TLS identity are installed
independently: the certificate list is replaced iff the filtered list is
non-empty, and the key is replaced iff it parsed as non-null; an invalid
half leaves only that half's previous value active, so a new certificate
list can end up paired with the old key. -/
theorem claim_C3_amended (env : Env) (cfg : WebConfig) (st : ServerState) :
    (loadedValidCerts env cfg ≠ [] →
      (applyTls env cfg st).certificates = loadedValidCerts env cfg) ∧
    (loadedValidCerts env cfg = [] → (applyTls env cfg st).certificates = st.certificates) ∧
    (loadedKey env cfg = none → (applyTls env cfg st).privateKey = st.privateKey) ∧
    (∀ k, loadedKey env cfg = some k → (applyTls env cfg st).privateKey = some k) := by
  cases hk : loadedKey env cfg <;> by_cases hv : loadedValidCerts env cfg = [] <;>
    simp [applyTls, hk, hv]

/-- Witness for the amended C3 at a concrete input: valid certificates and
a null key install the certificates and keep the previous key. -/
theorem claim_C3_amended_witness :
    (applyTls envC cfgA stOld).certificates = loadedValidCerts envC cfgA ∧
    (applyTls envC cfgA stOld).privateKey = stOld.privateKey :=
  ⟨(claim_C3_amended envC cfgA stOld).1 (by decide),
   (claim_C3_amended envC cfgA stOld).2.2.1 (by decide)⟩

/-- Claim C4: the valid-certificate list contains exactly the parsed
certificates that are non-null with at least one full day of remaining
validity; a certificate whose `notAfter` is not in the future is never
contained in it, whatever surrounds it; and whenever that list is
non-empty the TLS block installs it as the whole certificate sequence. -/
theorem claim_C4 (env : Env) (cfg : WebConfig) (st : ServerState) (c : Cert) :
    (c ∈ loadedValidCerts env cfg ↔
      c ∈ env.certsAt (loadedCrtPath env cfg) ∧ c.isNull = false ∧
        0 < daysTo env.now c.expiryDate) ∧
    (c.expiryDate ≤ env.now → c ∉ loadedValidCerts env cfg) ∧
    (loadedValidCerts env cfg ≠ [] →
      (applyTls env cfg st).certificates = loadedValidCerts env cfg) := by
  have hmem : c ∈ loadedValidCerts env cfg ↔
      c ∈ env.certsAt (loadedCrtPath env cfg) ∧ c.isNull = false ∧
        0 < daysTo env.now c.expiryDate := by
    simp [loadedValidCerts, validCerts, List.mem_filter, and_assoc]
  refine ⟨hmem, ?_, ?_⟩
  · intro hpast hc
    have h := (hmem.mp hc).2.2
    rw [daysTo] at h
    omega
  · intro hv
    cases hk : loadedKey env cfg <;> simp [applyTls, hk, hv]

/-- Witness for C4 at a concrete input: the expired certificate of `envC`
is excluded although surrounded by valid ones, and the filtered list is
installed. -/
theorem claim_C4_witness :
    certExpired ∉ loadedValidCerts envC cfgA ∧
    (applyTls envC cfgA stA).certificates = loadedValidCerts envC cfgA :=
  ⟨(claim_C4 envC cfgA stA certExpired).2.1 (by decide),
   (claim_C4 envC cfgA stA certExpired).2.2 (by decide)⟩

/-- A non-TLS server listening on port 8090 with a live Bonjour
registration for port 8090. -/
def stListen : ServerState :=
  { port := 8090, baseUrl := "", listening := true, certificates := []
    privateKey := none, servicePort := some 8090, inited := true }

/-- Claim C6 counterexample: stopping a listening server — a transition
out of Listening — emits no withdraw and leaves the Bonjour registration
in place, refuting "withdrawn on every transition out of Listening". -/
theorem claim_C6_counterexample :
    QtHttpServer.stop stListen =
      ({ stListen with listening := false }, [Event.stateChange false]) ∧
    Event.withdraw ∉ [Event.stateChange false] ∧
    ({ stListen with listening := false } : ServerState).servicePort = some 8090 :=
  ⟨by decide, by decide, by decide⟩

/-- Claim C6 (amended): on a transition into Listening the non-TLS
instance announces iff no registration exists or the registered port
differs (withdrawing the stale registration first in the latter case, and
doing nothing when the registered port is unchanged); a TLS instance never
announces; and a transition out of Listening performs no withdrawal — the
registration survives the stop. -/
theorem claim_C6_amended (port : Nat) (st : ServerState) :
    (onServerStarted true port st).2 = [Event.stateChange true] ∧
    (st.servicePort = none →
      (onServerStarted false port st).2 = [Event.announce port, Event.stateChange true]) ∧
    (∀ q, st.servicePort = some q → q ≠ port →
      (onServerStarted false port st).2 =
        [Event.withdraw, Event.announce port, Event.stateChange true]) ∧
    (st.servicePort = some port → (onServerStarted false port st).2 = [Event.stateChange true]) ∧
    Event.withdraw ∉ (QtHttpServer.stop st).2 ∧
    Event.announce port ∉ (QtHttpServer.stop st).2 ∧
    (QtHttpServer.stop st).1.servicePort = st.servicePort := by
  refine ⟨rfl, ?_, ?_, ?_, ?_, ?_, ?_⟩
  · intro h
    simp [onServerStarted, h]
  · intro q hq hne
    simp [onServerStarted, hq, hne]
  · intro h
    simp [onServerStarted, h]
  · cases hl : st.listening <;> simp [QtHttpServer.stop, onServerStopped, hl]
  · cases hl : st.listening <;> simp [QtHttpServer.stop, onServerStopped, hl]
  · cases hl : st.listening <;> simp [QtHttpServer.stop, onServerStopped, hl]

/-- Witness for the amended C6 at a concrete input: restarting on a new
port withdraws the stale registration and announces the new port, while a
stop withdraws nothing. -/
theorem claim_C6_amended_witness :
    (onServerStarted false 8091 stListen).2 =
      [Event.withdraw, Event.announce 8091, Event.stateChange true] ∧
    Event.withdraw ∉ (QtHttpServer.stop stListen).2 :=
  ⟨(claim_C6_amended 8091 stListen).2.2.1 8090 (by decide) (by decide),
   (claim_C6_amended 8091 stListen).2.2.2.2.1⟩

/-- Claim C8 counterexample: an empty configured path is replaced by the
built-in default silently — with no error-level report — refuting the
claim that all three substitution cases are reported at error level; the
default-sentinel case is likewise silent. -/
theorem claim_C8_counterexample :
    isBlank "" = true ∧
    resolvePath ":/default.key" (fun _ => false) "" = (":/default.key", false) ∧
    resolvePath ":/default.key" (fun _ => false) ":/default.key" = (":/default.key", false) :=
  ⟨by decide, by decide, by decide⟩

/-- Claim C8 (amended): path resolution always continues with a usable
path and never fails hard: an empty or default-sentinel path is replaced
by the built-in default silently; a non-default, non-blank path that does
not exist on disk is replaced by the default with an error-level report;
an existing non-default path is kept. -/
theorem claim_C8_amended (dflt : String) (ex : String → Bool) (path : String) :
    ((isBlank path = true ∨ path = dflt) → resolvePath dflt ex path = (dflt, false)) ∧
    (path ≠ dflt → isBlank path = false → ex path = false →
      resolvePath dflt ex path = (dflt, true)) ∧
    (path ≠ dflt → isBlank path = false → ex path = true →
      resolvePath dflt ex path = (path, false)) := by
  refine ⟨?_, ?_, ?_⟩
  · rintro (h | h)
    · by_cases hd : path = dflt
      · simp [resolvePath, hd]
      · simp [resolvePath, hd, h]
    · simp [resolvePath, h]
  · intro h1 h2 h3
    simp [resolvePath, h1, h2, h3]
  · intro h1 h2 h3
    simp [resolvePath, h1, h2, h3]

/-- Witness for the amended C8 at concrete inputs: a missing custom path
falls back with an error report, an empty path falls back silently. -/
theorem claim_C8_amended_witness :
    resolvePath ":/default.key" (fun _ => false) "/custom/server.key" = (":/default.key", true) ∧
    resolvePath ":/default.key" (fun _ => false) "" = (":/default.key", false) :=
  ⟨(claim_C8_amended ":/default.key" (fun _ => false) "/custom/server.key").2.1
      (by decide) (by decide) rfl,
   (claim_C8_amended ":/default.key" (fun _ => false) "").1 (Or.inl (by decide))⟩

/-- Witness for C10 at a concrete input: a `JSONSERVER` update leaves the
fresh server untouched and silent. -/
theorem claim_C10_witness :
    handleSettingsUpdate envA false SettingsType.JSONSERVER cfgA stA = some (stA, []) :=
  claim_C10 envA false SettingsType.JSONSERVER cfgA stA (by decide)
